import Mathlib

/-!
Shallow embedding of the M-Care slip-verification route
(`src/backend/src/api/verification.ts`).

JS strings are modelled as lists of UTF-16 code units (`List Nat`);
the handler's state (database, provider, clock, fallibility of save and
email) is passed explicitly and every externally visible effect of the
handler is recorded in its result.
-/

namespace MCare

/-! ## Character-code helpers (ASCII case mapping as performed by the JS
string operations that `normalizeName` uses) -/

/-- ASCII lower-casing of one code unit (used for the case-insensitive
regex match `/^(mr|mrs|ms|dr)\.?/i`). -/
def toLowerCode (n : Nat) : Nat := if 65 ≤ n ∧ n ≤ 90 then n + 32 else n

/-- ASCII upper-casing of one code unit (`String.prototype.toUpperCase`
restricted to the ASCII alphanumerics that survive the preceding filter). -/
def toUpperCode (n : Nat) : Nat := if 97 ≤ n ∧ n ≤ 122 then n - 32 else n

/-- The code units kept by `replace(/[^a-zA-Z0-9]/g, "")`. -/
def isAlnumCode (n : Nat) : Bool :=
  decide ((97 ≤ n ∧ n ≤ 122) ∨ (65 ≤ n ∧ n ≤ 90) ∨ (48 ≤ n ∧ n ≤ 57))

/-- The code units removed from the ends by `String.prototype.trim`. -/
def isWsCode (n : Nat) : Bool :=
  decide (n = 32 ∨ n = 9 ∨ n = 10 ∨ n = 11 ∨ n = 12 ∨ n = 13 ∨ n = 160 ∨
    n = 8232 ∨ n = 8233 ∨ n = 65279)

/-- Case-insensitive match of a literal pattern (given in lower case) at the
start of the input; on success returns the rest of the input. -/
def stripCI : List Nat → List Nat → Option (List Nat)
  | [], rest => some rest
  | _ :: _, [] => none
  | p :: ps, c :: cs => if toLowerCode c = p then stripCI ps cs else none

/-- The optional trailing period of the honorific regex (`\.?`). -/
def dropDot : List Nat → List Nat
  | 46 :: rest => rest
  | l => l

/-- `replace(/^(mr|mrs|ms|dr)\.?/i, "")`: the alternatives are tried in
source order and the first that matches wins (a JS regex does not backtrack
into the alternation once `\.?` has succeeded, so `mrs` is shadowed by `mr`). -/
def stripHonorific (l : List Nat) : List Nat :=
  match stripCI [109, 114] l with
  | some r => dropDot r
  | none =>
    match stripCI [109, 114, 115] l with
    | some r => dropDot r
    | none =>
      match stripCI [109, 115] l with
      | some r => dropDot r
      | none =>
        match stripCI [100, 114] l with
        | some r => dropDot r
        | none => l

/-- `String.prototype.trim`: drop whitespace from both ends. -/
def trimCodes (l : List Nat) : List Nat :=
  ((l.dropWhile isWsCode).reverse.dropWhile isWsCode).reverse

/-- The whole normalization pipeline of `normalizeName`, on code units:
strip one honorific, drop non-alphanumerics, upper-case, trim. -/
def normCodes (l : List Nat) : List Nat :=
  trimCodes (((stripHonorific l).filter isAlnumCode).map toUpperCode)

/-- `normalizeName` from verification.ts, lifted to Lean strings. -/
def normalizeName (s : String) : String :=
  String.mk ((normCodes (s.data.map Char.toNat)).map Char.ofNat)

/-! ## Provider responses and the retry wrapper -/

/-- The shape of the OpenSlipVerify JSON response, restricted to the fields
the handler reads (`success`, `msg`, `statusMessage`, `data.receiver.name`).
`Option` marks fields that may be absent. -/
structure Receiver where
  name : Option String
deriving DecidableEq, Repr

structure ProviderData where
  receiver : Option Receiver
deriving DecidableEq, Repr

structure ProviderResponse where
  success : Option Bool
  msg : Option String
  statusMessage : Option String
  data : Option ProviderData
deriving DecidableEq, Repr

/-- One provider attempt either throws (network error, timeout, non-2xx —
modelled as an error message) or yields a parsed response body. The
behaviour of the external service is a function from the 1-based attempt
index to that outcome. -/
def ProviderBehavior : Type := Nat → Except String ProviderResponse

/-- The `for (let attempt = 1; attempt <= retries; attempt++)` loop of
`verifySlipWithRetry`. Returns the overall outcome (`Except.ok none` is the
fall-off-the-loop `undefined`, reachable only when `retries = 0`), the list
of attempt indices actually issued, and the list of backoff waits (in ms)
requested between attempts, in order. -/
def retryLoop (provider : ProviderBehavior) :
    Nat → Nat → Except String (Option ProviderResponse) × List Nat × List Nat
  | _, 0 => (Except.ok none, [], [])
  | attempt, remaining + 1 =>
    match provider attempt with
    | Except.ok r => (Except.ok (some r), [attempt], [])
    | Except.error e =>
      if remaining = 0 then (Except.error e, [attempt], [])
      else
        match retryLoop provider (attempt + 1) remaining with
        | (res, calls, waits) => (res, attempt :: calls, attempt * 1000 :: waits)

/-- `verifySlipWithRetry(refNbr, amount, token, retries)`: attempts start
at index 1. The route always uses the default `retries = 3`. -/
def verifySlipWithRetry (provider : ProviderBehavior) (retries : Nat) :
    Except String (Option ProviderResponse) × List Nat × List Nat :=
  retryLoop provider 1 retries

/-! ## Data model: appointments, request, environment, world -/

structure UserDetails where
  name : String
  email : String
deriving DecidableEq, Repr

structure TimeSlot where
  date : String
  time : String
deriving DecidableEq, Repr

/-- The `paymentVerification` sub-document written by the handler. -/
structure PaymentVerification where
  status : String
  verifiedAt : Nat
  decodedString : String
  notes : Option String
deriving DecidableEq, Repr

/-- An appointment document. `paymentVerification` is absent until a slip
is verified. -/
structure Appointment where
  bookingId : String
  userDetails : UserDetails
  timeSlot : TimeSlot
  amount : Int
  paymentVerification : Option PaymentVerification
deriving DecidableEq, Repr

/-- The request body. `none` is an absent field; JS falsiness of present
values (empty string, zero) is handled by `truthyStr` / `truthyNum`. -/
structure RequestBody where
  bookingID : Option String
  refNbr : Option String
  amount : Option Int
deriving DecidableEq, Repr

/-- The two environment variables the handler requires. -/
structure Env where
  token : Option String
  receiverName : Option String
deriving DecidableEq, Repr

/-- Everything external the handler touches: the appointment collection,
the provider, the clock, and whether `appointment.save()` and `sendEmail`
would succeed or throw. -/
structure World where
  db : List Appointment
  provider : ProviderBehavior
  now : Nat
  saveOk : Bool
  emailOk : Bool

/-- JS truthiness of a possibly absent string (`!x` is true for a missing
field and for the empty string). -/
def truthyStr : Option String → Bool
  | none => false
  | some s => decide (s ≠ "")

/-- JS truthiness of a possibly absent number (`!x` is true for a missing
field and for `0`). -/
def truthyNum : Option Int → Bool
  | none => false
  | some n => decide (n ≠ 0)

/-- JS `x || d` for a possibly absent string `x` and a truthy default. -/
def jsOr (m : Option String) (d : String) : String :=
  match m with
  | some s => if s = "" then d else s
  | none => d

/-- JS `x || null` for a possibly absent string. -/
def jsOrNull (m : Option String) : Option String :=
  match m with
  | some s => if s = "" then none else some s
  | none => none

/-- `Appointment.findOne({ "paymentVerification.decodedString": refNbr })`. -/
def findDup (db : List Appointment) (ref : String) : Option Appointment :=
  db.find? fun a =>
    match a.paymentVerification with
    | some pv => pv.decodedString == ref
    | none => false

/-- `appointment.save()`: replace the first document matched by the
`bookingId` lookup with its mutated version. -/
def updateFirst (p : Appointment → Bool) (a' : Appointment) :
    List Appointment → List Appointment
  | [] => []
  | a :: rest => if p a then a' :: rest else a :: updateFirst p a' rest

/-! ## The handler and its observable outcome -/

/-- The JSON body the handler sends: `status`, `message`, the optional
`debug: { expected, got }` payload of the mismatch branch, and the optional
`data` payload of the success branch. -/
structure ResponseBody where
  status : String
  message : String
  debug : Option (String × String)
  data : Option Appointment
deriving DecidableEq, Repr

/-- The handler's full observable behaviour: HTTP status, JSON body, the
database after the request, which provider attempts were issued and which
backoffs requested, whether the duplicate-reference lookup and the
`bookingId` lookup ran, whether a save happened, and whether the email
send was attempted. -/
structure Outcome where
  httpStatus : Nat
  body : ResponseBody
  db : List Appointment
  providerCalls : List Nat
  waits : List Nat
  dupRead : Bool
  bookingRead : Bool
  saved : Bool
  emailTried : Bool
deriving Repr

/-- A failure body (`{ status: "failed", message }`). -/
def failBody (m : String) : ResponseBody :=
  { status := "failed", message := m, debug := none, data := none }

/-- An outcome with no effects beyond the response itself. -/
def pureOut (st : Nat) (b : ResponseBody) (w : World) : Outcome :=
  { httpStatus := st, body := b, db := w.db, providerCalls := [], waits := [],
    dupRead := false, bookingRead := false, saved := false, emailTried := false }

/-- The `router.post("/", ...)` handler of verification.ts as a function of
the request body, the environment and the world. Every `return res...` of
the source is one branch; the surrounding `try/catch` turns a provider
error or a save error into the final 500, and the inner `try/catch` around
`sendEmail` swallows email errors. -/
def handler (req : RequestBody) (env : Env) (w : World) : Outcome :=
  if !truthyStr req.bookingID || !truthyStr req.refNbr || !truthyNum req.amount then
    pureOut 400 (failBody "Missing required fields") w
  else
    let bookingID := req.bookingID.getD ""
    let refNbr := req.refNbr.getD ""
    if !truthyStr env.token || !truthyStr env.receiverName then
      pureOut 500 (failBody "Server misconfiguration") w
    else
      match findDup w.db refNbr with
      | some _ =>
        { pureOut 409 (failBody "Reference number already used") w with dupRead := true }
      | none =>
        let vr := verifySlipWithRetry w.provider 3
        match vr.1 with
        | Except.error _ =>
          { pureOut 500 (failBody "Server error or verification failed") w with
              dupRead := true, providerCalls := vr.2.1, waits := vr.2.2 }
        | Except.ok respOpt =>
          if (respOpt.bind ProviderResponse.success) ≠ some true then
            { pureOut 400 (failBody (jsOr (respOpt.bind ProviderResponse.msg) "Verification unsuccessful")) w with
                dupRead := true, providerCalls := vr.2.1, waits := vr.2.2 }
          else
            match respOpt with
            | none =>
              { pureOut 400 (failBody "Verification unsuccessful") w with
                  dupRead := true, providerCalls := vr.2.1, waits := vr.2.2 }
            | some resp =>
              let receiver := resp.data.bind ProviderData.receiver
              let normalizedExpectedName := normalizeName (env.receiverName.getD "")
              let normalizedReturnedName := normalizeName (jsOr (receiver.bind Receiver.name) "")
              if normalizedExpectedName ≠ normalizedReturnedName then
                let b := { failBody "Receiver account mismatch" with
                  debug := some (normalizedExpectedName, normalizedReturnedName) }
                { pureOut 400 b w with
                    dupRead := true, providerCalls := vr.2.1, waits := vr.2.2 }
              else
                match w.db.find? (fun a => a.bookingId == bookingID) with
                | none =>
                  { pureOut 404 (failBody "Appointment not found") w with
                      dupRead := true, providerCalls := vr.2.1, waits := vr.2.2,
                      bookingRead := true }
                | some appt =>
                  let pv : PaymentVerification :=
                    { status := "verified", verifiedAt := w.now,
                      decodedString := refNbr, notes := jsOrNull resp.statusMessage }
                  let updated := { appt with paymentVerification := some pv }
                  if w.saveOk then
                    let okBody : ResponseBody :=
                      { status := "verified",
                        message := "Slip verified, appointment updated, and email sent",
                        debug := none, data := some updated }
                    { httpStatus := 200, body := okBody,
                      db := updateFirst (fun a => a.bookingId == bookingID) updated w.db,
                      providerCalls := vr.2.1, waits := vr.2.2,
                      dupRead := true, bookingRead := true,
                      saved := true, emailTried := true }
                  else
                    { pureOut 500 (failBody "Server error or verification failed") w with
                        dupRead := true, providerCalls := vr.2.1, waits := vr.2.2,
                        bookingRead := true }

/-! ## Concrete fixtures (used by witnesses and counterexamples) -/

/-- A code unit that is an upper-case ASCII letter or a digit: the only
code units `normalizeName` can emit. -/
def isUpperAlnumCode (n : Nat) : Bool :=
  decide ((65 ≤ n ∧ n ≤ 90) ∨ (48 ≤ n ∧ n ≤ 57))

def apptPending : Appointment :=
  { bookingId := "B1",
    userDetails := { name := "Ann", email := "ann@example.com" },
    timeSlot := { date := "2025-01-01", time := "09:00" },
    amount := 500,
    paymentVerification := none }

def apptUsed : Appointment :=
  { bookingId := "B0",
    userDetails := { name := "Bo", email := "bo@example.com" },
    timeSlot := { date := "2025-01-02", time := "10:00" },
    amount := 700,
    paymentVerification := some
      { status := "verified", verifiedAt := 5, decodedString := "R0", notes := none } }

def respGood : ProviderResponse :=
  { success := some true, msg := none, statusMessage := some "Slip OK",
    data := some { receiver := some { name := some "acme" } } }

def respRejected : ProviderResponse :=
  { success := some false, msg := some "invalid slip", statusMessage := none, data := none }

def respWrongName : ProviderResponse :=
  { success := some true, msg := none, statusMessage := none,
    data := some { receiver := some { name := some "evil corp" } } }

def respNoReceiver : ProviderResponse :=
  { success := some true, msg := none, statusMessage := none, data := none }

def envGood : Env := { token := some "tok", receiverName := some "ACME" }

def reqGood : RequestBody :=
  { bookingID := some "B1", refNbr := some "R1", amount := some 500 }

def providerAlwaysOk (resp : ProviderResponse) : ProviderBehavior :=
  fun _ => Except.ok resp

def providerAlwaysErr : ProviderBehavior := fun _ => Except.error "ECONNREFUSED"

/-- Fails on attempts 1 and 2, succeeds on attempt 3. -/
def providerFailTwice : ProviderBehavior :=
  fun k => if k ≤ 2 then Except.error "timeout" else Except.ok respGood

def worldGood : World :=
  { db := [apptUsed, apptPending], provider := providerAlwaysOk respGood,
    now := 1735689600, saveOk := true, emailOk := true }

def reqNoAmount : RequestBody :=
  { bookingID := some "B1", refNbr := some "R1", amount := none }

def reqZeroAmount : RequestBody :=
  { bookingID := some "B1", refNbr := some "R1", amount := some 0 }

/-- A valid request whose reference number is already consumed by `apptUsed`. -/
def reqDup : RequestBody :=
  { bookingID := some "B1", refNbr := some "R0", amount := some 500 }

/-- A request with a consumed reference number but no `bookingID`. -/
def reqDupNoBooking : RequestBody :=
  { bookingID := none, refNbr := some "R0", amount := some 500 }

def worldErr : World := { worldGood with provider := providerAlwaysErr }

def worldRejected : World := { worldGood with provider := providerAlwaysOk respRejected }

def worldWrongName : World := { worldGood with provider := providerAlwaysOk respWrongName }

def worldNoReceiver : World := { worldGood with provider := providerAlwaysOk respNoReceiver }

/-! ## Properties of the normalization pipeline -/

theorem isUpperAlnum_toUpperCode {n : Nat} (h : isAlnumCode n = true) :
    isUpperAlnumCode (toUpperCode n) = true := by
  simp only [isAlnumCode, decide_eq_true_eq] at h
  simp only [isUpperAlnumCode, toUpperCode, decide_eq_true_eq]
  split <;> omega

theorem toUpperCode_of_upperAlnum {n : Nat} (h : isUpperAlnumCode n = true) :
    toUpperCode n = n := by
  simp only [isUpperAlnumCode, decide_eq_true_eq] at h
  simp only [toUpperCode]
  split <;> omega

theorem isAlnumCode_of_upperAlnum {n : Nat} (h : isUpperAlnumCode n = true) :
    isAlnumCode n = true := by
  simp only [isUpperAlnumCode, decide_eq_true_eq] at h
  simp only [isAlnumCode, decide_eq_true_eq]
  omega

theorem isWsCode_of_upperAlnum {n : Nat} (h : isUpperAlnumCode n = true) :
    isWsCode n = false := by
  simp only [isUpperAlnumCode, decide_eq_true_eq] at h
  simp only [isWsCode, decide_eq_false_iff_not]
  omega

theorem validChar_of_upperAlnum {n : Nat} (h : isUpperAlnumCode n = true) :
    n.isValidChar := by
  simp only [isUpperAlnumCode, decide_eq_true_eq] at h
  exact Or.inl (by omega)

theorem char_toNat_ofNat {n : Nat} (h : n.isValidChar) : (Char.ofNat n).toNat = n := by
  unfold Char.ofNat
  rw [dif_pos h]
  rfl

theorem trimCodes_subset (l : List Nat) : ∀ n ∈ trimCodes l, n ∈ l := by
  intro n hn
  simp only [trimCodes, List.mem_reverse] at hn
  have h2 := (List.dropWhile_sublist _).subset hn
  rw [List.mem_reverse] at h2
  exact (List.dropWhile_sublist _).subset h2

theorem mem_normCodes_upperAlnum {l : List Nat} {n : Nat} (h : n ∈ normCodes l) :
    isUpperAlnumCode n = true := by
  have h1 : n ∈ ((stripHonorific l).filter isAlnumCode).map toUpperCode :=
    trimCodes_subset _ n h
  rcases List.mem_map.1 h1 with ⟨m, hm, rfl⟩
  exact isUpperAlnum_toUpperCode (List.mem_filter.1 hm).2

theorem dropWhile_ws_eq_self {l : List Nat} (h : ∀ n ∈ l, isWsCode n = false) :
    l.dropWhile isWsCode = l := by
  cases l with
  | nil => rfl
  | cons a rest =>
    have ha := h a (List.mem_cons_self a rest)
    simp [List.dropWhile_cons, ha]

theorem trimCodes_eq_self {l : List Nat} (h : ∀ n ∈ l, isWsCode n = false) :
    trimCodes l = l := by
  unfold trimCodes
  rw [dropWhile_ws_eq_self h]
  rw [dropWhile_ws_eq_self (fun n hn => h n (List.mem_reverse.1 hn))]
  exact List.reverse_reverse l

theorem map_toUpperCode_eq_self {l : List Nat} (h : ∀ n ∈ l, toUpperCode n = n) :
    l.map toUpperCode = l := by
  induction l with
  | nil => rfl
  | cons a rest ih =>
    have ha := h a (List.mem_cons_self a rest)
    simp only [List.map_cons, ha, List.cons.injEq, true_and]
    exact ih fun n hn => h n (List.mem_cons_of_mem a hn)

theorem map_toNat_ofNat {l : List Nat} (h : ∀ n ∈ l, isUpperAlnumCode n = true) :
    (l.map Char.ofNat).map Char.toNat = l := by
  induction l with
  | nil => rfl
  | cons a rest ih =>
    have ha := char_toNat_ofNat (validChar_of_upperAlnum (h a (List.mem_cons_self a rest)))
    simp only [List.map_cons, ha, List.cons.injEq, true_and]
    exact ih fun n hn => h n (List.mem_cons_of_mem a hn)

/-- Applying the pipeline to one of its own outputs only re-runs the
honorific stripping: if that does nothing, the output is a fixed point. -/
theorem normCodes_normCodes {l : List Nat}
    (h : stripHonorific (normCodes l) = normCodes l) :
    normCodes (normCodes l) = normCodes l := by
  have hmem : ∀ n ∈ normCodes l, isUpperAlnumCode n = true :=
    fun n hn => mem_normCodes_upperAlnum hn
  conv_lhs => rw [normCodes]
  rw [h]
  rw [List.filter_eq_self.2 fun n hn => isAlnumCode_of_upperAlnum (hmem n hn)]
  rw [map_toUpperCode_eq_self fun n hn => toUpperCode_of_upperAlnum (hmem n hn)]
  exact trimCodes_eq_self fun n hn => isWsCode_of_upperAlnum (hmem n hn)

theorem normalizeName_fix (x : String)
    (h : stripHonorific (normCodes (x.data.map Char.toNat)) =
      normCodes (x.data.map Char.toNat)) :
    normalizeName (normalizeName x) = normalizeName x := by
  show String.mk ((normCodes
      (((normCodes (x.data.map Char.toNat)).map Char.ofNat).map Char.toNat)).map Char.ofNat) =
    String.mk ((normCodes (x.data.map Char.toNat)).map Char.ofNat)
  rw [map_toNat_ofNat fun n hn => mem_normCodes_upperAlnum hn]
  rw [normCodes_normCodes h]

/-- C2, counterexample: `normalizeName` is not idempotent. The space in
`" mr"` defeats the anchored honorific regex, the filter then produces
`"MR"`, and a second pass strips that as an honorific, yielding `""`. -/
theorem c2_counterexample :
    ¬ (normalizeName (normalizeName " mr") = normalizeName " mr") := by decide

/-- C2 (amended): `normalizeName(normalizeName(x)) = normalizeName(x)` for
every string `x` whose normalized form is not itself subject to honorific
stripping (the stripping step is the only part of the pipeline that can act
on an already-normalized string); both concrete examples of the claim hold
as stated. -/
theorem c2_amended_idempotent_on_honorific_free (x : String)
    (h : stripHonorific (normCodes (x.data.map Char.toNat)) =
      normCodes (x.data.map Char.toNat)) :
    normalizeName (normalizeName x) = normalizeName x ∧
    normalizeName "Dr. Jane O\x27Brien" = normalizeName "JANE OBRIEN" ∧
    normalizeName "Mr Smith" = normalizeName "SMITH" :=
  ⟨normalizeName_fix x h, by decide, by decide⟩

/-- Witness for the amended C2 at `x = "Jane"`. -/
theorem c2_witness :
    stripHonorific (normCodes ("Jane".data.map Char.toNat)) =
      normCodes ("Jane".data.map Char.toNat) ∧
    normalizeName (normalizeName "Jane") = normalizeName "Jane" :=
  ⟨by decide, (c2_amended_idempotent_on_honorific_free "Jane" (by decide)).1⟩

/-! ## The retry wrapper -/

/-- C3: with the route's `retries = 3`, the wrapper issues at most 3
attempts; the attempts are the consecutive indices `1, 2, ...`; the backoff
requested before attempt `k+1` is `k * 1000` ms; and if an issued attempt
`k` succeeds it is the last one and its response is returned. -/
theorem c3_retry_at_most_three_linear_backoff (provider : ProviderBehavior) :
    (verifySlipWithRetry provider 3).2.1.length ≤ 3 ∧
    (verifySlipWithRetry provider 3).2.1 =
      List.range' 1 (verifySlipWithRetry provider 3).2.1.length ∧
    (verifySlipWithRetry provider 3).2.2 =
      (List.range' 1 ((verifySlipWithRetry provider 3).2.1.length - 1)).map
        (fun k => k * 1000) ∧
    ∀ k r, k ∈ (verifySlipWithRetry provider 3).2.1 → provider k = Except.ok r →
      (verifySlipWithRetry provider 3).1 = Except.ok (some r) ∧
      (verifySlipWithRetry provider 3).2.1.length = k := by
  rcases h1 : provider 1 with e1 | r1
  · rcases h2 : provider 2 with e2 | r2
    · rcases h3 : provider 3 with e3 | r3
      · have hv : verifySlipWithRetry provider 3 =
            (Except.error e3, [1, 2, 3], [1000, 2000]) := by
          simp [verifySlipWithRetry, retryLoop, h1, h2, h3]
        rw [hv]
        refine ⟨by simp, rfl, rfl, ?_⟩
        intro k r hk hok
        have hk3 : k = 1 ∨ k = 2 ∨ k = 3 := by simpa using hk
        rcases hk3 with rfl | rfl | rfl
        · rw [h1] at hok; cases hok
        · rw [h2] at hok; cases hok
        · rw [h3] at hok; cases hok
      · have hv : verifySlipWithRetry provider 3 =
            (Except.ok (some r3), [1, 2, 3], [1000, 2000]) := by
          simp [verifySlipWithRetry, retryLoop, h1, h2, h3]
        rw [hv]
        refine ⟨by simp, rfl, rfl, ?_⟩
        intro k r hk hok
        have hk3 : k = 1 ∨ k = 2 ∨ k = 3 := by simpa using hk
        rcases hk3 with rfl | rfl | rfl
        · rw [h1] at hok; cases hok
        · rw [h2] at hok; cases hok
        · rw [h3] at hok
          cases hok
          exact ⟨rfl, rfl⟩
    · have hv : verifySlipWithRetry provider 3 =
          (Except.ok (some r2), [1, 2], [1000]) := by
        simp [verifySlipWithRetry, retryLoop, h1, h2]
      rw [hv]
      refine ⟨by simp, rfl, rfl, ?_⟩
      intro k r hk hok
      have hk2 : k = 1 ∨ k = 2 := by simpa using hk
      rcases hk2 with rfl | rfl
      · rw [h1] at hok; cases hok
      · rw [h2] at hok
        cases hok
        exact ⟨rfl, rfl⟩
  · have hv : verifySlipWithRetry provider 3 = (Except.ok (some r1), [1], []) := by
      simp [verifySlipWithRetry, retryLoop, h1]
    rw [hv]
    refine ⟨by simp, rfl, rfl, ?_⟩
    intro k r hk hok
    have hk1 : k = 1 := by simpa using hk
    subst hk1
    rw [h1] at hok
    cases hok
    exact ⟨rfl, rfl⟩

/-- Witness for C3: two induced failures followed by a success make exactly
3 sequential attempts with backoffs 1000 ms and 2000 ms, and the third
attempt's response is returned. -/
theorem c3_witness :
    (verifySlipWithRetry providerFailTwice 3).1 = Except.ok (some respGood) ∧
    (verifySlipWithRetry providerFailTwice 3).2.1.length = 3 ∧
    (verifySlipWithRetry providerFailTwice 3).2.1 = [1, 2, 3] ∧
    (verifySlipWithRetry providerFailTwice 3).2.2 = [1000, 2000] := by
  have h := c3_retry_at_most_three_linear_backoff providerFailTwice
  have h3 := h.2.2.2 3 respGood (by decide) rfl
  exact ⟨h3.1, h3.2, by decide, by decide⟩

/-! ## Early-rejection branches of the handler -/

/-- C8: a request missing any of `bookingID`, `refNbr`, `amount` is answered
400 with a failure body, with no provider attempt and no database read or
write. -/
theorem c8_missing_fields_400_no_effects (req : RequestBody) (env : Env) (w : World)
    (h : req.bookingID = none ∨ req.refNbr = none ∨ req.amount = none) :
    (handler req env w).httpStatus = 400 ∧
    (handler req env w).body.status = "failed" ∧
    (handler req env w).providerCalls = [] ∧
    (handler req env w).dupRead = false ∧
    (handler req env w).bookingRead = false ∧
    (handler req env w).saved = false ∧
    (handler req env w).db = w.db := by
  rcases h with h | h | h <;>
    simp [handler, h, truthyStr, truthyNum, pureOut, failBody]

/-- Witness for C8 at a request with no `amount`. -/
theorem c8_witness :
    reqNoAmount.amount = none ∧
    (handler reqNoAmount envGood worldGood).httpStatus = 400 ∧
    (handler reqNoAmount envGood worldGood).providerCalls = [] ∧
    (handler reqNoAmount envGood worldGood).dupRead = false := by
  have h := c8_missing_fields_400_no_effects reqNoAmount envGood worldGood
    (Or.inr (Or.inr rfl))
  exact ⟨rfl, h.1, h.2.2.1, h.2.2.2.1⟩

/-- C9: an `amount` that is present but equal to `0` is falsy in JS, so the
required-field check rejects the request exactly like a missing field. -/
theorem c9_zero_amount_treated_missing (req : RequestBody) (env : Env) (w : World)
    (h : req.amount = some 0) :
    (handler req env w).httpStatus = 400 ∧
    (handler req env w).body.message = "Missing required fields" ∧
    (handler req env w).body.status = "failed" ∧
    (handler req env w).providerCalls = [] ∧
    (handler req env w).dupRead = false ∧
    (handler req env w).bookingRead = false ∧
    (handler req env w).saved = false ∧
    (handler req env w).db = w.db := by
  simp [handler, h, truthyNum, pureOut, failBody]

/-- Witness for C9 at `amount = 0`. -/
theorem c9_witness :
    reqZeroAmount.amount = some 0 ∧
    (handler reqZeroAmount envGood worldGood).httpStatus = 400 ∧
    (handler reqZeroAmount envGood worldGood).body.message = "Missing required fields" := by
  have h := c9_zero_amount_treated_missing reqZeroAmount envGood worldGood rfl
  exact ⟨rfl, h.1, h.2.1⟩

/-- C4, counterexample: a request whose `refNbr` is already consumed but
which is missing `bookingID` is answered 400 (missing fields), not 409 —
input validation runs before the duplicate-reference check. -/
theorem c4_counterexample :
    (findDup worldGood.db "R0").isSome = true ∧
    reqDupNoBooking.refNbr = some "R0" ∧
    (handler reqDupNoBooking envGood worldGood).httpStatus = 400 ∧
    ¬ (handler reqDupNoBooking envGood worldGood).httpStatus = 409 := by
  refine ⟨by decide, rfl, by decide, by decide⟩

/-- C4 (amended): every request that passes input validation and server
configuration and whose `refNbr` equals the stored `decodedString` of an
existing appointment is answered 409 with a failure body, with no provider
call and no appointment mutation. -/
theorem c4_amended_duplicate_ref_conflict (req : RequestBody) (env : Env) (w : World)
    (d : Appointment)
    (h1 : truthyStr req.bookingID = true) (h2 : truthyStr req.refNbr = true)
    (h3 : truthyNum req.amount = true)
    (h4 : truthyStr env.token = true) (h5 : truthyStr env.receiverName = true)
    (h6 : findDup w.db (req.refNbr.getD "") = some d) :
    (handler req env w).httpStatus = 409 ∧
    (handler req env w).body.status = "failed" ∧
    (handler req env w).body.message = "Reference number already used" ∧
    (handler req env w).providerCalls = [] ∧
    (handler req env w).bookingRead = false ∧
    (handler req env w).saved = false ∧
    (handler req env w).db = w.db := by
  simp [handler, h1, h2, h3, h4, h5, h6, pureOut, failBody]

/-- Witness for the amended C4 at a duplicate reference number. -/
theorem c4_witness :
    findDup worldGood.db (reqDup.refNbr.getD "") = some apptUsed ∧
    (handler reqDup envGood worldGood).httpStatus = 409 ∧
    (handler reqDup envGood worldGood).providerCalls = [] ∧
    (handler reqDup envGood worldGood).db = worldGood.db := by
  have h := c4_amended_duplicate_ref_conflict reqDup envGood worldGood apptUsed
    (by decide) (by decide) (by decide) (by decide) (by decide) (by decide)
  exact ⟨by decide, h.1, h.2.2.2.1, h.2.2.2.2.2.2⟩

/-! ## Provider-failure and provider-rejection branches -/

/-- C5: when all three provider attempts throw, the retry wrapper propagates
the third attempt's error, and the handler answers 500 with a failure body,
with no appointment lookup and no mutation. -/
theorem c5_provider_exhaustion_500_no_mutation (req : RequestBody) (env : Env)
    (w : World) (e1 e2 e3 : String)
    (h1 : truthyStr req.bookingID = true) (h2 : truthyStr req.refNbr = true)
    (h3 : truthyNum req.amount = true)
    (h4 : truthyStr env.token = true) (h5 : truthyStr env.receiverName = true)
    (h6 : findDup w.db (req.refNbr.getD "") = none)
    (he1 : w.provider 1 = Except.error e1) (he2 : w.provider 2 = Except.error e2)
    (he3 : w.provider 3 = Except.error e3) :
    verifySlipWithRetry w.provider 3 = (Except.error e3, [1, 2, 3], [1000, 2000]) ∧
    (handler req env w).httpStatus = 500 ∧
    (handler req env w).body.status = "failed" ∧
    (handler req env w).body.message = "Server error or verification failed" ∧
    (handler req env w).bookingRead = false ∧
    (handler req env w).saved = false ∧
    (handler req env w).db = w.db := by
  have hv : verifySlipWithRetry w.provider 3 =
      (Except.error e3, [1, 2, 3], [1000, 2000]) := by
    simp [verifySlipWithRetry, retryLoop, he1, he2, he3]
  refine ⟨hv, ?_⟩
  simp [handler, h1, h2, h3, h4, h5, h6, hv, pureOut, failBody]

/-- Witness for C5: three consecutive connection failures. -/
theorem c5_witness :
    (handler reqGood envGood worldErr).httpStatus = 500 ∧
    (handler reqGood envGood worldErr).saved = false ∧
    (handler reqGood envGood worldErr).db = worldErr.db := by
  have h := c5_provider_exhaustion_500_no_mutation reqGood envGood worldErr
    "ECONNREFUSED" "ECONNREFUSED" "ECONNREFUSED"
    (by decide) (by decide) (by decide) (by decide) (by decide) (by decide)
    rfl rfl rfl
  exact ⟨h.2.1, h.2.2.2.2.2.1, h.2.2.2.2.2.2⟩

/-- C6: a provider response whose `success` field is `false` or absent is
answered 400 with the provider's message (`msg`, with a fixed fallback for
a falsy one), and no appointment mutation. -/
theorem c6_rejected_response_400 (req : RequestBody) (env : Env) (w : World)
    (resp : ProviderResponse)
    (h1 : truthyStr req.bookingID = true) (h2 : truthyStr req.refNbr = true)
    (h3 : truthyNum req.amount = true)
    (h4 : truthyStr env.token = true) (h5 : truthyStr env.receiverName = true)
    (h6 : findDup w.db (req.refNbr.getD "") = none)
    (h7 : (verifySlipWithRetry w.provider 3).1 = Except.ok (some resp))
    (h8 : resp.success = some false ∨ resp.success = none) :
    (handler req env w).httpStatus = 400 ∧
    (handler req env w).body.status = "failed" ∧
    (handler req env w).body.message = jsOr resp.msg "Verification unsuccessful" ∧
    (handler req env w).bookingRead = false ∧
    (handler req env w).saved = false ∧
    (handler req env w).db = w.db := by
  rcases h8 with h8 | h8 <;>
    simp [handler, h1, h2, h3, h4, h5, h6, h7, h8, pureOut, failBody]

/-- Witness for C6: a `success: false` response carrying a message. -/
theorem c6_witness :
    (handler reqGood envGood worldRejected).httpStatus = 400 ∧
    (handler reqGood envGood worldRejected).body.message = "invalid slip" ∧
    (handler reqGood envGood worldRejected).saved = false := by
  have h := c6_rejected_response_400 reqGood envGood worldRejected respRejected
    (by decide) (by decide) (by decide) (by decide) (by decide) (by decide)
    rfl (Or.inl rfl)
  refine ⟨h.1, ?_, h.2.2.2.2.1⟩
  rw [h.2.2.1]
  decide

/-- C7: a successful provider response whose receiver name normalizes
differently from the configured name is answered 400 with both normalized
values in the `debug` payload, and no appointment mutation. -/
theorem c7_receiver_mismatch_400_debug (req : RequestBody) (env : Env) (w : World)
    (resp : ProviderResponse)
    (h1 : truthyStr req.bookingID = true) (h2 : truthyStr req.refNbr = true)
    (h3 : truthyNum req.amount = true)
    (h4 : truthyStr env.token = true) (h5 : truthyStr env.receiverName = true)
    (h6 : findDup w.db (req.refNbr.getD "") = none)
    (h7 : (verifySlipWithRetry w.provider 3).1 = Except.ok (some resp))
    (h8 : resp.success = some true)
    (h9 : normalizeName (env.receiverName.getD "") ≠
      normalizeName (jsOr ((resp.data.bind ProviderData.receiver).bind Receiver.name) "")) :
    (handler req env w).httpStatus = 400 ∧
    (handler req env w).body.status = "failed" ∧
    (handler req env w).body.message = "Receiver account mismatch" ∧
    (handler req env w).body.debug = some (normalizeName (env.receiverName.getD ""),
      normalizeName (jsOr ((resp.data.bind ProviderData.receiver).bind Receiver.name) "")) ∧
    (handler req env w).bookingRead = false ∧
    (handler req env w).saved = false ∧
    (handler req env w).db = w.db := by
  simp [handler, h1, h2, h3, h4, h5, h6, h7, h8, h9, pureOut, failBody]

/-- Witness for C7: provider says the money went to `"evil corp"`, the
configuration expects `"ACME"`. -/
theorem c7_witness :
    (handler reqGood envGood worldWrongName).httpStatus = 400 ∧
    (handler reqGood envGood worldWrongName).body.debug = some ("ACME", "EVILCORP") ∧
    (handler reqGood envGood worldWrongName).saved = false := by
  have h := c7_receiver_mismatch_400_debug reqGood envGood worldWrongName respWrongName
    (by decide) (by decide) (by decide) (by decide) (by decide) (by decide)
    rfl rfl (by decide)
  refine ⟨h.1, ?_, h.2.2.2.2.2.1⟩
  rw [h.2.2.2.1]
  decide

/-! ## Absent receiver name, and the full success path -/

/-- C10: when a `success: true` response carries no `data.receiver` (or no
receiver name), the handler substitutes the empty string before
normalization, so the identity check passes exactly when the configured
name also normalizes to the empty string; otherwise the mismatch response
carries the empty string as the normalized returned name. -/
theorem c10_absent_receiver_defaults_empty (req : RequestBody) (env : Env)
    (w : World) (resp : ProviderResponse)
    (h1 : truthyStr req.bookingID = true) (h2 : truthyStr req.refNbr = true)
    (h3 : truthyNum req.amount = true)
    (h4 : truthyStr env.token = true) (h5 : truthyStr env.receiverName = true)
    (h6 : findDup w.db (req.refNbr.getD "") = none)
    (h7 : (verifySlipWithRetry w.provider 3).1 = Except.ok (some resp))
    (h8 : resp.success = some true)
    (h9 : (resp.data.bind ProviderData.receiver).bind Receiver.name = none) :
    normalizeName (jsOr ((resp.data.bind ProviderData.receiver).bind Receiver.name) "") = "" ∧
    (normalizeName (env.receiverName.getD "") = "" →
      (handler req env w).body.debug = none ∧
      (handler req env w).body.message ≠ "Receiver account mismatch") ∧
    (normalizeName (env.receiverName.getD "") ≠ "" →
      (handler req env w).httpStatus = 400 ∧
      (handler req env w).body.message = "Receiver account mismatch" ∧
      (handler req env w).body.debug =
        some (normalizeName (env.receiverName.getD ""), "")) := by
  have hempty : normalizeName
      (jsOr ((resp.data.bind ProviderData.receiver).bind Receiver.name) "") = "" := by
    rw [h9]
    rfl
  refine ⟨hempty, ?_, ?_⟩
  · intro hc
    have hmatch : normalizeName (env.receiverName.getD "") =
        normalizeName (jsOr ((resp.data.bind ProviderData.receiver).bind Receiver.name) "") := by
      rw [hempty, hc]
    rcases hb : w.db.find? (fun a => a.bookingId == req.bookingID.getD "") with _ | appt
    · constructor <;>
        simp [handler, h1, h2, h3, h4, h5, h6, h7, h8, hmatch, hb, pureOut, failBody]
    · by_cases hs : w.saveOk
      · constructor <;>
          simp [handler, h1, h2, h3, h4, h5, h6, h7, h8, hmatch, hb, hs, pureOut, failBody]
      · constructor <;>
          simp [handler, h1, h2, h3, h4, h5, h6, h7, h8, hmatch, hb, hs, pureOut, failBody]
  · intro hc
    have hne : normalizeName (env.receiverName.getD "") ≠
        normalizeName (jsOr ((resp.data.bind ProviderData.receiver).bind Receiver.name) "") := by
      rw [hempty]
      exact hc
    have h := c7_receiver_mismatch_400_debug req env w resp h1 h2 h3 h4 h5 h6 h7 h8 hne
    refine ⟨h.1, h.2.2.1, ?_⟩
    rw [h.2.2.2.1, hempty]

/-- Witness for C10: a `success: true` response with no `data` at all, with
a configured name that does not normalize to the empty string. -/
theorem c10_witness :
    (respNoReceiver.data.bind ProviderData.receiver).bind Receiver.name = none ∧
    (handler reqGood envGood worldNoReceiver).httpStatus = 400 ∧
    (handler reqGood envGood worldNoReceiver).body.debug = some ("ACME", "") := by
  have h := c10_absent_receiver_defaults_empty reqGood envGood worldNoReceiver respNoReceiver
    (by decide) (by decide) (by decide) (by decide) (by decide) (by decide)
    rfl rfl rfl
  have h3 := h.2.2 (by decide)
  refine ⟨rfl, h3.1, ?_⟩
  rw [h3.2.2]
  decide

/-- C1: on the fully successful path (valid input, configuration present,
fresh reference, `success: true`, matching receiver name, appointment
found, save succeeds) the handler marks the appointment verified with
`decodedString = refNbr`, `verifiedAt` set from the clock and `notes` from
the provider's `statusMessage` (or null), persists it, and answers 200 with
the updated record; the outcome does not depend on whether the email step
throws. -/
theorem c1_success_path_200_email_independent (req : RequestBody) (env : Env)
    (w : World) (resp : ProviderResponse) (appt : Appointment)
    (h1 : truthyStr req.bookingID = true) (h2 : truthyStr req.refNbr = true)
    (h3 : truthyNum req.amount = true)
    (h4 : truthyStr env.token = true) (h5 : truthyStr env.receiverName = true)
    (h6 : findDup w.db (req.refNbr.getD "") = none)
    (h7 : (verifySlipWithRetry w.provider 3).1 = Except.ok (some resp))
    (h8 : resp.success = some true)
    (h9 : normalizeName (env.receiverName.getD "") =
      normalizeName (jsOr ((resp.data.bind ProviderData.receiver).bind Receiver.name) ""))
    (h10 : w.db.find? (fun a => a.bookingId == req.bookingID.getD "") = some appt)
    (h11 : w.saveOk = true) :
    (handler req env w).httpStatus = 200 ∧
    (handler req env w).body.status = "verified" ∧
    (handler req env w).body.data = some { appt with paymentVerification := some { status := "verified", verifiedAt := w.now, decodedString := req.refNbr.getD "", notes := jsOrNull resp.statusMessage } } ∧
    (handler req env w).saved = true ∧
    (handler req env w).db = updateFirst (fun a => a.bookingId == req.bookingID.getD "") { appt with paymentVerification := some { status := "verified", verifiedAt := w.now, decodedString := req.refNbr.getD "", notes := jsOrNull resp.statusMessage } } w.db ∧
    (∀ b₁ b₂ : Bool, handler req env { w with emailOk := b₁ } =
      handler req env { w with emailOk := b₂ }) := by
  refine ⟨?_, ?_, ?_, ?_, ?_, fun b₁ b₂ => rfl⟩ <;>
    simp [handler, h1, h2, h3, h4, h5, h6, h7, h8, h9, h10, h11, pureOut, failBody]

/-- Witness for C1 on the concrete good world: reference `"R1"` is fresh,
the provider accepts and reports receiver `"acme"`, configuration expects
`"ACME"`, and booking `"B1"` exists. -/
theorem c1_witness :
    (handler reqGood envGood worldGood).httpStatus = 200 ∧
    (handler reqGood envGood worldGood).body.data = some { apptPending with paymentVerification := some { status := "verified", verifiedAt := 1735689600, decodedString := "R1", notes := some "Slip OK" } } ∧
    (handler reqGood envGood worldGood).saved = true ∧
    handler reqGood envGood { worldGood with emailOk := false } =
      handler reqGood envGood { worldGood with emailOk := true } := by
  have h := c1_success_path_200_email_independent reqGood envGood worldGood respGood
    apptPending
    (by decide) (by decide) (by decide) (by decide) (by decide) (by decide)
    rfl rfl (by decide) (by decide) rfl
  refine ⟨h.1, ?_, h.2.2.2.1, h.2.2.2.2.2 false true⟩
  rw [h.2.2.1]
  decide

end MCare

